import Mathlib

/-!
Verification of the multi-region migration scripts.

Shallow embedding of the Python scripts in `scripts/` and
`cleanup-resources.py`.  Strings manipulated character-wise by the
scripts (configuration files, bucket names) are modelled as `List Char`;
provider API calls are modelled by explicit outcome parameters (the
"oracle" deciding whether a remote call succeeds or raises the
provider's `ClientError` with a given error code).
-/

namespace AwsMigration

/-! ## Python string primitives

`pySplitOn c s` models Python's `s.split(c)` for a one-character
separator: the list of maximal chunks between occurrences of `c`,
keeping empty chunks, so that the result always has
`(number of occurrences of c) + 1` elements. -/

def pySplitOn (c : Char) : List Char → List (List Char)
  | [] => [[]]
  | x :: xs =>
    if x = c then [] :: pySplitOn c xs
    else
      match pySplitOn c xs with
      | [] => [[x]]
      | r :: rs => (x :: r) :: rs

/-- Python's `s.startswith(p)` on character lists. -/
def pyStartsWith (p s : List Char) : Bool := List.isPrefixOf p s

/-- Python's `s.replace(pat, rep)`: replace every non-overlapping
occurrence of `pat`, scanning left to right.  The scripts only call it
with the non-empty pattern `"source"`; for an empty pattern this model
leaves the string unchanged. -/
def pyReplaceFuel (pat rep : List Char) : Nat → List Char → List Char
  | 0, s => s
  | _ + 1, [] => []
  | fuel + 1, x :: xs =>
    if pat ≠ [] ∧ List.isPrefixOf pat (x :: xs) then
      rep ++ pyReplaceFuel pat rep fuel ((x :: xs).drop pat.length)
    else
      x :: pyReplaceFuel pat rep fuel xs

def pyReplace (pat rep s : List Char) : List Char :=
  pyReplaceFuel pat rep s.length s

/-! ## The shared configuration-file parsing loop

`scripts/migration/s3-bulk-migration.py` (`main`, lines 201-205),
`scripts/migration/setup-s3-replication.py` (`main`, lines 165-169),
`scripts/validation/complete-migration-validation.py`
(`load_configuration`, lines 25-29) and
`scripts/migration/dynamodb-stream-sync.py` (`main`, lines 168-172) all
run the same loop: split the file content on newlines and, for each line
starting with one of two `KEY=` prefixes, assign `line.split('=')[1]` to
the corresponding variable (a later matching line overwrites an earlier
one).  `none` models the Python variable still being unbound. -/

def parseSourceLines (keyA keyB : List Char) :
    List (List Char) → Option (List Char) × Option (List Char) →
      Option (List Char) × Option (List Char)
  | [], acc => acc
  | l :: ls, acc =>
    parseSourceLines keyA keyB ls
      (if pyStartsWith keyA l then ((pySplitOn '=' l).get? 1, acc.2)
       else if pyStartsWith keyB l then (acc.1, (pySplitOn '=' l).get? 1)
       else acc)

/-- Parsing of `bucket-info.txt` in `s3-bulk-migration.py` `main` (also
verbatim in `setup-s3-replication.py` `main` and in
`complete-migration-validation.py` `load_configuration`): the pair
(SOURCE_BUCKET value, SOURCE_REGION value). -/
def parseBucketInfo (content : List Char) : Option (List Char) × Option (List Char) :=
  parseSourceLines "SOURCE_BUCKET=".data "SOURCE_REGION=".data (pySplitOn '\n' content) (none, none)

/-- Parsing of `dynamodb-info.txt` in `dynamodb-stream-sync.py` `main`:
the pair (SOURCE_TABLE value, SOURCE_REGION value). -/
def parseDynamoInfo (content : List Char) : Option (List Char) × Option (List Char) :=
  parseSourceLines "SOURCE_TABLE=".data "SOURCE_REGION=".data (pySplitOn '\n' content) (none, none)

/-! ## scripts/migration/s3-bulk-migration.py -/

/-- One entry of the list built by `S3BulkMigrator.list_all_objects`
(key, size, last_modified, etag). -/
structure S3Object where
  key : List Char
  size : Nat
  last_modified : List Char
  etag : List Char
deriving DecidableEq, Repr

/-- One entry of the `target_configs` lists (a `{"bucket": …, "region": …}`
dict). -/
structure TargetConfig where
  bucket : List Char
  region : List Char
deriving DecidableEq, Repr

/-- The `self.stats` dictionary of `S3BulkMigrator` (the `start_time`
wall-clock field is not modelled). -/
structure Stats where
  total_objects : Nat
  successful_copies : Nat
  failed_copies : Nat
  bytes_transferred : Nat
  errors : List (List Char)
deriving DecidableEq, Repr

/-- The statistics as initialised by `S3BulkMigrator.__init__`. -/
def initStats : Stats :=
  { total_objects := 0, successful_copies := 0, failed_copies := 0
    bytes_transferred := 0, errors := [] }

/-- The error message built in the `except ClientError` branch of
`copy_object_to_target`; `e` is the text of the provider exception. -/
def copyErrorMsg (obj : S3Object) (target : TargetConfig) (e : List Char) : List Char :=
  "Failed to copy ".data ++ obj.key ++ " to ".data ++ target.bucket ++ ": ".data ++ e

/-- Outcome of the remote `head_object`/`copy_object` calls for one
(object, target) pair: `none` = both succeed, `some e` = a `ClientError`
with text `e` is raised. -/
abbrev CopyOracle := S3Object → TargetConfig → Option (List Char)

/-- `S3BulkMigrator.copy_object_to_target`: on success increment
`successful_copies` and add the object size to `bytes_transferred` and
return `True`; on `ClientError` increment `failed_copies`, append the
error message and return `False`. -/
def copy_object_to_target (obj : S3Object) (target : TargetConfig)
    (outcome : Option (List Char)) (stats : Stats) : Bool × Stats :=
  match outcome with
  | none =>
    (true, { stats with successful_copies := stats.successful_copies + 1
                        bytes_transferred := stats.bytes_transferred + obj.size })
  | some e =>
    (false, { stats with failed_copies := stats.failed_copies + 1
                         errors := stats.errors ++ [copyErrorMsg obj target e] })

/-- The `for target_config in self.target_configs` loop of
`migrate_object_to_all_targets`: returns the `results` list and the
statistics after all copies. -/
def migrateLoop (oracle : CopyOracle) (obj : S3Object) :
    List TargetConfig → Stats → List Bool × Stats
  | [], stats => ([], stats)
  | t :: ts, stats =>
    let r := copy_object_to_target obj t (oracle obj t) stats
    let rest := migrateLoop oracle obj ts r.2
    (r.1 :: rest.1, rest.2)

/-- `S3BulkMigrator.migrate_object_to_all_targets`: run the copy loop and
return `all(results)`. -/
def migrate_object_to_all_targets (oracle : CopyOracle) (targets : List TargetConfig)
    (obj : S3Object) (stats : Stats) : Bool × Stats :=
  let r := migrateLoop oracle obj targets stats
  (r.1.all id, r.2)

/-- `S3BulkMigrator.list_all_objects`: `listing = some objs` models a
successful pagination yielding `objs` (also records `total_objects`);
`listing = none` models a `ClientError` during listing, in which case the
function returns `[]` and leaves the statistics unchanged. -/
def list_all_objects (listing : Option (List S3Object)) (stats : Stats) :
    List S3Object × Stats :=
  match listing with
  | some objs => (objs, { stats with total_objects := objs.length })
  | none => ([], stats)

/-- The thread-pool body of `run_migration`, linearised: the migrations of
the individual objects are applied in sequence.  (Every statistics update
is an increment or an append under `stats_lock`, so the final counters do
not depend on the thread interleaving.) -/
def runLoop (oracle : CopyOracle) (targets : List TargetConfig) :
    List S3Object → Stats → Stats
  | [], stats => stats
  | o :: os, stats =>
    runLoop oracle targets os (migrate_object_to_all_targets oracle targets o stats).2

/-- `S3BulkMigrator.run_migration` started on a freshly constructed
migrator: list the source bucket, return `False` immediately when the
listing is empty, otherwise migrate every object and return
`failed_copies == 0`. -/
def run_migration (listing : Option (List S3Object)) (oracle : CopyOracle)
    (targets : List TargetConfig) : Bool × Stats :=
  let r := list_all_objects listing initStats
  if r.1.isEmpty then (false, r.2)
  else
    let final := runLoop oracle targets r.1 r.2
    (final.failed_copies == 0, final)

/-- Iterated application of completed `copy_object_to_target` calls: each
event is one completed call, given by the object, the target and the
call's outcome. -/
def applyCopyEvents : List (S3Object × TargetConfig × Option (List Char)) → Stats → Stats
  | [], stats => stats
  | e :: es, stats => applyCopyEvents es (copy_object_to_target e.1 e.2.1 e.2.2 stats).2

/-- The `target_configs` list built in `s3-bulk-migration.py` `main`
(lines 207-217) from the parsed source bucket name. -/
def bulkMigrationTargetConfigs (source_bucket : List Char) : List TargetConfig :=
  [ { bucket := pyReplace "source".data "target-us-west-2".data source_bucket
      region := "us-west-2".data },
    { bucket := pyReplace "source".data "target-eu-west-1".data source_bucket
      region := "eu-west-1".data } ]

/-! ## scripts/migration/setup-s3-replication.py -/

/-- The `target_configs` list built in `setup-s3-replication.py` `main`
(lines 171-180) from the parsed source bucket name. -/
def replicationSetupTargetConfigs (source_bucket : List Char) : List TargetConfig :=
  [ { bucket := pyReplace "source".data "target-us-west-2".data source_bucket
      region := "us-west-2".data },
    { bucket := pyReplace "source".data "target-eu-west-1".data source_bucket
      region := "eu-west-1".data } ]

/-- `S3ReplicationSetup.create_replication_role`: `outcome = none` models
`create_role` (and `attach_role_policy`) succeeding, returning the new
role's ARN `createdArn`; `outcome = some code` models `create_role`
raising a `ClientError` with that error code, in which case the code
`EntityAlreadyExists` leads to `get_role` returning the existing ARN
`existingArn`, and any other code returns `None`. -/
def create_replication_role (outcome : Option (List Char))
    (createdArn existingArn : List Char) : Option (List Char) :=
  match outcome with
  | none => some createdArn
  | some code =>
    if code = "EntityAlreadyExists".data then some existingArn else none

/-! ## scripts/validation/complete-migration-validation.py -/

/-- Python-dict assignment `d[k] = v` on an insertion-ordered
association list: overwrite in place when the key exists, append
otherwise. -/
def pyDictInsert {β : Type} (k : List Char) (v : β) :
    List (List Char × β) → List (List Char × β)
  | [] => [(k, v)]
  | (k', v') :: rest =>
    if k' = k then (k, v) :: rest else (k', v') :: pyDictInsert k v rest

/-- `MigrationValidator._get_bucket_objects`: fold the paginated listing
into a key → (size, modified) dict.  (An exception mid-listing is caught
and simply truncates the pages that were folded, so it is modelled by a
shorter `pages` input.) -/
def get_bucket_objects (pages : List (List S3Object)) :
    List (List Char × (Nat × List Char)) :=
  pages.foldl
    (fun d page =>
      page.foldl (fun d o => pyDictInsert o.key (o.size, o.last_modified) d) d)
    []

/-- The keys of a Python dict, in insertion order. -/
def dictKeys {β : Type} (d : List (List Char × β)) : List (List Char) :=
  d.map Prod.fst

/-- The per-target record stored in
`results['s3_bulk_migration']['targets'][bucket]`. -/
structure S3TargetReport where
  count : Nat
  missing : Nat
  status : List Char
deriving DecidableEq, Repr

/-- The body of the `for target in self.target_configs['s3']` loop of
`validate_s3_bulk_migration`: `missing_objects` is the set difference
`set(source keys) - set(target keys)` (source dict keys are pairwise
distinct, so the filter below has exactly the cardinality of that set),
and the target is `COMPLETE` when it is empty. -/
def s3TargetReport (sourceKeys targetKeys : List (List Char)) : S3TargetReport :=
  let missing := sourceKeys.filter (fun k => ! targetKeys.contains k)
  { count := targetKeys.length
    missing := missing.length
    status := if missing.length = 0 then "COMPLETE".data else "INCOMPLETE".data }

/-- The `for target in self.target_configs['s3']` loop of
`validate_s3_bulk_migration`, threading (`all_targets_valid`, the
per-target reports stored so far). -/
def s3ValidateLoop (sourceKeys : List (List Char))
    (targetPages : TargetConfig → List (List S3Object)) :
    List TargetConfig → Bool × List (List Char × S3TargetReport) →
      Bool × List (List Char × S3TargetReport)
  | [], acc => acc
  | t :: ts, acc =>
    let rep := s3TargetReport sourceKeys (dictKeys (get_bucket_objects (targetPages t)))
    s3ValidateLoop sourceKeys targetPages ts
      (acc.1 && (rep.missing == 0), acc.2 ++ [(t.bucket, rep)])

/-- `MigrationValidator.validate_s3_bulk_migration`: list the source
bucket, check each target, and return (`all_targets_valid`, the
per-target reports keyed by bucket name).  `targetPages t` is the
paginated listing of target `t`. -/
def validate_s3_bulk_migration (sourcePages : List (List S3Object))
    (targetPages : TargetConfig → List (List S3Object))
    (targets : List TargetConfig) :
    Bool × List (List Char × S3TargetReport) :=
  s3ValidateLoop (dictKeys (get_bucket_objects sourcePages)) targetPages targets (true, [])

/-- The `sync_status` string computed in `validate_dynamodb_sync`:
`SYNCED` exactly when the target scan count equals the source scan
count. -/
def dynamoSyncStatus (target_count source_count : Nat) : List Char :=
  if target_count = source_count then "SYNCED".data else "OUT_OF_SYNC".data

/-- The `for target in self.target_configs['dynamodb']` loop of
`MigrationValidator.validate_dynamodb_sync` after a successful source
scan of `source_count` items: each target is a pair of table name and
scan outcome (`some n` = the scan returned `n` items, `none` = the
per-target check raised an exception, which is caught and clears
`all_targets_synced`).  Threads (`all_targets_synced`, the per-target
(count, status) records stored so far). -/
def dynamoSyncLoop (source_count : Nat) :
    List (List Char × Option Nat) → Bool × List (List Char × (Nat × List Char)) →
      Bool × List (List Char × (Nat × List Char))
  | [], acc => acc
  | t :: ts, acc =>
    dynamoSyncLoop source_count ts
      (match t.2 with
       | some n =>
         (acc.1 && (dynamoSyncStatus n source_count == "SYNCED".data),
          acc.2 ++ [(t.1, (n, dynamoSyncStatus n source_count))])
       | none => (false, acc.2))

/-- See `dynamoSyncLoop`; the function returns `all_targets_synced`. -/
def validate_dynamodb_sync (source_count : Nat)
    (targets : List (List Char × Option Nat)) :
    Bool × List (List Char × (Nat × List Char)) :=
  dynamoSyncLoop source_count targets (true, [])

/-- The `target_configs['s3']` list built in
`MigrationValidator.load_configuration` (lines 39-49) from the parsed
source bucket name. -/
def validationS3TargetConfigs (source_bucket : List Char) : List TargetConfig :=
  [ { bucket := pyReplace "source".data "target-us-west-2".data source_bucket
      region := "us-west-2".data },
    { bucket := pyReplace "source".data "target-eu-west-1".data source_bucket
      region := "eu-west-1".data } ]

/-! ## scripts/setup/create-dynamodb-python.py and cleanup-resources.py -/

/-- Aggregate outcome of the guarded provider calls inside a `try` block:
success, a `ClientError` with a given error code, or some other
exception. -/
inductive CallOutcome where
  | ok
  | clientError (code : List Char)
  | otherError
deriving DecidableEq, Repr

/-- `create_dynamodb_table`: `True` on success; on `ClientError` `True`
exactly for the code `ResourceInUseException` (table already exists);
`False` for any other `ClientError` and for any other exception. -/
def create_dynamodb_table (outcome : CallOutcome) : Bool :=
  match outcome with
  | .ok => true
  | .clientError code => if code = "ResourceInUseException".data then true else false
  | .otherError => false

/-- Observable result of `cleanup-resources.py`'s
`delete_all_object_versions` (the function itself returns `None`; the
three cases are distinguished by what it does and prints). -/
inductive DeleteBucketResult where
  | deleted
  | alreadyDeleted
  | errorLogged
deriving DecidableEq, Repr

/-- `delete_all_object_versions`: `outcome = none` models all the
version/marker deletions and the bucket deletion succeeding; on a
`ClientError`, the code `NoSuchBucket` is reported as "already deleted"
and every other code as an error. -/
def delete_all_object_versions (outcome : Option (List Char)) : DeleteBucketResult :=
  match outcome with
  | none => .deleted
  | some code =>
    if code = "NoSuchBucket".data then .alreadyDeleted else .errorLogged

/-- The content of `dynamodb-info.txt` as written by
`create-dynamodb-python.py` `main` (lines 95-101), with
`project_name = "migration-demo"`. -/
def dynamodbInfoContent (source_table source_region : List Char)
    (target_regions : List (List Char)) : List Char :=
  "SOURCE_TABLE=".data ++ source_table ++ "\n".data ++
  "SOURCE_REGION=".data ++ source_region ++ "\n".data ++
  "TARGET_TABLES=(\n".data ++
  (target_regions.map
    (fun r => "    migration-demo-target-".data ++ r ++ "-user-data\n".data)).flatten ++
  ")\n".data

/-- The fixed trailing block of `dynamodb-info.txt` (the TARGET_TABLES
lines and the closing parenthesis) for the hard-coded target regions
us-west-2 and eu-west-1 of `create-dynamodb-python.py` `main`. -/
def dynamodbInfoTail : List Char :=
  ("TARGET_TABLES=(\n" ++
   "    migration-demo-target-us-west-2-user-data\n" ++
   "    migration-demo-target-eu-west-1-user-data\n" ++
   ")\n").data

/-! ## scripts/migration/dynamodb-stream-sync.py: value conversion

A Python value as handled by `_convert_floats_to_decimal`: strings,
ints, bools, floats, `Decimal`s, `None`, dicts and lists.  A float is
carried by the text `str(f)` of its repr (which is all the conversion
uses of it), and `Decimal(s)` by the string `s` it was built from. -/

inductive PyVal where
  | str : List Char → PyVal
  | int : Int → PyVal
  | bool : Bool → PyVal
  | float : List Char → PyVal
  | decimal : List Char → PyVal
  | pynone : PyVal
  | dict : List (List Char × PyVal) → PyVal
  | list : List PyVal → PyVal

mutual

/-- `DynamoDBStreamSync._convert_floats_to_decimal`: recurse into dicts
and lists, turn each float `f` into `Decimal(str(f))`, return anything
else unchanged. -/
def convert_floats_to_decimal : PyVal → PyVal
  | .dict kvs => .dict (convertDictItems kvs)
  | .list vs => .list (convertListItems vs)
  | .float f => .decimal f
  | v => v

/-- The dict comprehension `{k: convert(v) for k, v in item.items()}`. -/
def convertDictItems : List (List Char × PyVal) → List (List Char × PyVal)
  | [] => []
  | (k, v) :: rest => (k, convert_floats_to_decimal v) :: convertDictItems rest

/-- The list comprehension `[convert(v) for v in item]`. -/
def convertListItems : List PyVal → List PyVal
  | [] => []
  | v :: rest => convert_floats_to_decimal v :: convertListItems rest

end

mutual

/-- Whether a value contains a float anywhere. -/
def hasFloat : PyVal → Bool
  | .float _ => true
  | .dict kvs => hasFloatDict kvs
  | .list vs => hasFloatList vs
  | _ => false

def hasFloatDict : List (List Char × PyVal) → Bool
  | [] => false
  | (_, v) :: rest => hasFloat v || hasFloatDict rest

def hasFloatList : List PyVal → Bool
  | [] => false
  | v :: rest => hasFloat v || hasFloatList rest

end

/-! ## Helper lemmas -/

theorem copy_object_to_target_fst (obj : S3Object) (target : TargetConfig)
    (outcome : Option (List Char)) (stats : Stats) :
    (copy_object_to_target obj target outcome stats).1 = outcome.isNone := by
  cases outcome <;> rfl

theorem migrateLoop_results (oracle : CopyOracle) (obj : S3Object) :
    ∀ (targets : List TargetConfig) (stats : Stats),
      (migrateLoop oracle obj targets stats).1 =
        targets.map (fun t => (oracle obj t).isNone) := by
  intro targets
  induction targets with
  | nil => intro stats; rfl
  | cons t ts ih =>
    intro stats
    simp [migrateLoop, copy_object_to_target_fst, ih]

theorem dynamoSyncStatus_beq (n sc : Nat) :
    (dynamoSyncStatus n sc == "SYNCED".data) = (n == sc) := by
  by_cases h : n = sc <;> simp [dynamoSyncStatus, h]

theorem dynamoSyncLoop_flag (sc : Nat) :
    ∀ (ts : List (List Char × Option Nat))
      (acc : Bool × List (List Char × (Nat × List Char))),
      (dynamoSyncLoop sc ts acc).1 =
        (acc.1 && ts.all (fun t => t.2 == some sc)) := by
  intro ts
  induction ts with
  | nil => intro acc; simp [dynamoSyncLoop]
  | cons t ts ih =>
    intro acc
    match h : t.2 with
    | some n =>
      by_cases hn : n = sc <;>
        simp [dynamoSyncLoop, h, ih, hn, dynamoSyncStatus, Bool.and_assoc]
    | none =>
      simp [dynamoSyncLoop, h, ih]

theorem applyCopyEvents_successful :
    ∀ (events : List (S3Object × TargetConfig × Option (List Char))) (s : Stats),
      (applyCopyEvents events s).successful_copies
        = s.successful_copies + (events.filter (fun e => e.2.2.isNone)).length := by
  intro events
  induction events with
  | nil => intro s; simp [applyCopyEvents]
  | cons e es ih =>
    intro s
    match h : e.2.2 with
    | none => simp [applyCopyEvents, copy_object_to_target, h, ih]; omega
    | some msg => simp [applyCopyEvents, copy_object_to_target, h, ih]

theorem applyCopyEvents_failed :
    ∀ (events : List (S3Object × TargetConfig × Option (List Char))) (s : Stats),
      (applyCopyEvents events s).failed_copies
        = s.failed_copies + (events.filter (fun e => e.2.2.isSome)).length := by
  intro events
  induction events with
  | nil => intro s; simp [applyCopyEvents]
  | cons e es ih =>
    intro s
    match h : e.2.2 with
    | none => simp [applyCopyEvents, copy_object_to_target, h, ih]
    | some msg => simp [applyCopyEvents, copy_object_to_target, h, ih]; omega

theorem applyCopyEvents_bytes :
    ∀ (events : List (S3Object × TargetConfig × Option (List Char))) (s : Stats),
      (applyCopyEvents events s).bytes_transferred
        = s.bytes_transferred +
            ((events.filter (fun e => e.2.2.isNone)).map (fun e => e.1.size)).sum := by
  intro events
  induction events with
  | nil => intro s; simp [applyCopyEvents]
  | cons e es ih =>
    intro s
    match h : e.2.2 with
    | none => simp [applyCopyEvents, copy_object_to_target, h, ih]; omega
    | some msg => simp [applyCopyEvents, copy_object_to_target, h, ih]

theorem applyCopyEvents_errors :
    ∀ (events : List (S3Object × TargetConfig × Option (List Char))) (s : Stats),
      (applyCopyEvents events s).errors
        = s.errors ++ events.filterMap (fun e => e.2.2.map (copyErrorMsg e.1 e.2.1)) := by
  intro events
  induction events with
  | nil => intro s; simp [applyCopyEvents]
  | cons e es ih =>
    intro s
    match h : e.2.2 with
    | none => simp [applyCopyEvents, copy_object_to_target, h, ih]
    | some msg => simp [applyCopyEvents, copy_object_to_target, h, ih]

theorem filterMap_outcome_length
    (events : List (S3Object × TargetConfig × Option (List Char))) :
    (events.filterMap (fun e => e.2.2.map (copyErrorMsg e.1 e.2.1))).length
      = (events.filter (fun e => e.2.2.isSome)).length := by
  induction events with
  | nil => simp
  | cons e es ih =>
    match h : e.2.2 with
    | none => simp [h, ih]
    | some msg => simp [h, ih]

theorem filter_outcome_length_split
    (events : List (S3Object × TargetConfig × Option (List Char))) :
    (events.filter (fun e => e.2.2.isNone)).length
      + (events.filter (fun e => e.2.2.isSome)).length = events.length := by
  induction events with
  | nil => simp
  | cons e es ih =>
    match h : e.2.2 with
    | none => simp [h, ih]; omega
    | some msg => simp [h, ih]; omega

theorem s3TargetReport_complete_iff (src tgt : List (List Char)) :
    (s3TargetReport src tgt).status = "COMPLETE".data ↔ ∀ k ∈ src, k ∈ tgt := by
  have hfilter : ((src.filter (fun k => ! tgt.contains k)).length = 0) ↔
      ∀ k ∈ src, k ∈ tgt := by
    rw [List.length_eq_zero, List.filter_eq_nil_iff]
    simp
  by_cases h : (src.filter (fun k => ! tgt.contains k)).length = 0
  · simp [s3TargetReport, h, hfilter.mp h]
  · simp only [s3TargetReport, h, if_false, ite_false]
    constructor
    · intro habs
      exact absurd habs (by decide)
    · intro hall
      exact absurd (hfilter.mpr hall) h

theorem s3TargetReport_missing_zero_iff (src tgt : List (List Char)) :
    (s3TargetReport src tgt).missing = 0 ↔
      (s3TargetReport src tgt).status = "COMPLETE".data := by
  by_cases h : (src.filter (fun k => ! tgt.contains k)).length = 0 <;>
    simp [s3TargetReport, h]

theorem s3ValidateLoop_flag (srcKeys : List (List Char))
    (targetPages : TargetConfig → List (List S3Object)) :
    ∀ (ts : List TargetConfig) (acc : Bool × List (List Char × S3TargetReport)),
      (s3ValidateLoop srcKeys targetPages ts acc).1 =
        (acc.1 && ts.all (fun t =>
          (s3TargetReport srcKeys (dictKeys (get_bucket_objects (targetPages t)))).missing
            == 0)) := by
  intro ts
  induction ts with
  | nil => intro acc; simp [s3ValidateLoop]
  | cons t ts ih => intro acc; simp [s3ValidateLoop, ih, Bool.and_assoc]

theorem pySplitOn_not_mem (c : Char) (a : List Char) (h : c ∉ a) :
    pySplitOn c a = [a] := by
  induction a with
  | nil => rfl
  | cons x xs ih =>
    simp only [List.mem_cons, not_or] at h
    have hx : ¬ (x = c) := fun e => h.1 e.symm
    simp [pySplitOn, hx, ih h.2]

theorem pySplitOn_append_sep (c : Char) :
    ∀ (a b : List Char), c ∉ a → pySplitOn c (a ++ c :: b) = a :: pySplitOn c b := by
  intro a
  induction a with
  | nil => intro b _; simp [pySplitOn]
  | cons x xs ih =>
    intro b h
    simp only [List.mem_cons, not_or] at h
    have hx : ¬ (x = c) := fun e => h.1 e.symm
    simp [pySplitOn, hx, ih b h.2]

theorem isPrefixOf_append_of_le :
    ∀ (p q s : List Char), p.length ≤ q.length →
      List.isPrefixOf p (q ++ s) = List.isPrefixOf p q := by
  intro p
  induction p with
  | nil => intro q s _; simp [List.isPrefixOf]
  | cons x xs ih =>
    intro q s hle
    cases q with
    | nil => simp at hle
    | cons y ys =>
      simp only [List.cons_append, List.isPrefixOf, List.append_eq]
      rw [ih ys s (by simpa using hle)]

theorem pyStartsWith_append_self (p s : List Char) : pyStartsWith p (p ++ s) = true := by
  rw [pyStartsWith, List.isPrefixOf_iff_prefix]
  exact List.prefix_append p s

theorem parseSourceLines_append (k1 k2 : List Char) :
    ∀ (xs ys : List (List Char)) (acc : Option (List Char) × Option (List Char)),
      parseSourceLines k1 k2 (xs ++ ys) acc =
        parseSourceLines k1 k2 ys (parseSourceLines k1 k2 xs acc) := by
  intro xs
  induction xs with
  | nil => intro ys acc; rfl
  | cons l ls ih => intro ys acc; simp [parseSourceLines, ih]

theorem parseSourceLines_skip (k1 k2 : List Char) :
    ∀ (xs : List (List Char)) (acc : Option (List Char) × Option (List Char)),
      (∀ l ∈ xs, pyStartsWith k1 l = false ∧ pyStartsWith k2 l = false) →
      parseSourceLines k1 k2 xs acc = acc := by
  intro xs
  induction xs with
  | nil => intro acc _; rfl
  | cons l ls ih =>
    intro acc h
    have h1 := h l (List.mem_cons_self l ls)
    simp [parseSourceLines, h1.1, h1.2,
      ih _ (fun x hx => h x (List.mem_cons_of_mem l hx))]

theorem splitOn_key_value (key v : List Char) (hk : '=' ∉ key) (hv : '=' ∉ v) :
    (pySplitOn '=' (key ++ '=' :: v)).get? 1 = some v := by
  rw [pySplitOn_append_sep '=' key v hk, pySplitOn_not_mem '=' v hv]
  rfl

theorem parseSourceLines_two (k1 k2 lb lr : List Char)
    (pre mid post : List (List Char)) (acc : Option (List Char) × Option (List Char))
    (hpre : ∀ l ∈ pre, pyStartsWith k1 l = false ∧ pyStartsWith k2 l = false)
    (hmid : ∀ l ∈ mid, pyStartsWith k1 l = false ∧ pyStartsWith k2 l = false)
    (hpost : ∀ l ∈ post, pyStartsWith k1 l = false ∧ pyStartsWith k2 l = false)
    (hlb : pyStartsWith k1 lb = true)
    (hlr1 : pyStartsWith k1 lr = false) (hlr2 : pyStartsWith k2 lr = true) :
    parseSourceLines k1 k2 (pre ++ lb :: (mid ++ lr :: post)) acc =
      ((pySplitOn '=' lb).get? 1, (pySplitOn '=' lr).get? 1) := by
  rw [parseSourceLines_append, parseSourceLines_skip k1 k2 pre acc hpre]
  show parseSourceLines k1 k2 (lb :: (mid ++ lr :: post)) acc = _
  rw [parseSourceLines]
  simp only [hlb, if_true]
  rw [parseSourceLines_append, parseSourceLines_skip k1 k2 mid _ hmid]
  rw [parseSourceLines]
  simp only [hlr1, hlr2, if_true, Bool.false_eq_true, if_false]
  rw [parseSourceLines_skip k1 k2 post _ hpost]

mutual

theorem convert_noFloat : ∀ v : PyVal, hasFloat (convert_floats_to_decimal v) = false
  | .str _ => by simp [convert_floats_to_decimal, hasFloat]
  | .int _ => by simp [convert_floats_to_decimal, hasFloat]
  | .bool _ => by simp [convert_floats_to_decimal, hasFloat]
  | .float _ => by simp [convert_floats_to_decimal, hasFloat]
  | .decimal _ => by simp [convert_floats_to_decimal, hasFloat]
  | .pynone => by simp [convert_floats_to_decimal, hasFloat]
  | .dict kvs => by
    simp [convert_floats_to_decimal, hasFloat, convertDict_noFloat kvs]
  | .list vs => by
    simp [convert_floats_to_decimal, hasFloat, convertList_noFloat vs]

theorem convertDict_noFloat :
    ∀ kvs : List (List Char × PyVal), hasFloatDict (convertDictItems kvs) = false
  | [] => by simp [convertDictItems, hasFloatDict]
  | (k, v) :: rest => by
    simp [convertDictItems, hasFloatDict, convert_noFloat v, convertDict_noFloat rest]

theorem convertList_noFloat :
    ∀ vs : List PyVal, hasFloatList (convertListItems vs) = false
  | [] => by simp [convertListItems, hasFloatList]
  | v :: rest => by
    simp [convertListItems, hasFloatList, convert_noFloat v, convertList_noFloat rest]

end

mutual

theorem convert_id_of_noFloat :
    ∀ v : PyVal, hasFloat v = false → convert_floats_to_decimal v = v
  | .str _, _ => by simp [convert_floats_to_decimal]
  | .int _, _ => by simp [convert_floats_to_decimal]
  | .bool _, _ => by simp [convert_floats_to_decimal]
  | .float _, h => by simp [hasFloat] at h
  | .decimal _, _ => by simp [convert_floats_to_decimal]
  | .pynone, _ => by simp [convert_floats_to_decimal]
  | .dict kvs, h => by
    simp only [hasFloat] at h
    simp [convert_floats_to_decimal, convertDict_id_of_noFloat kvs h]
  | .list vs, h => by
    simp only [hasFloat] at h
    simp [convert_floats_to_decimal, convertList_id_of_noFloat vs h]

theorem convertDict_id_of_noFloat :
    ∀ kvs : List (List Char × PyVal), hasFloatDict kvs = false → convertDictItems kvs = kvs
  | [], _ => by simp [convertDictItems]
  | (k, v) :: rest, h => by
    simp only [hasFloatDict, Bool.or_eq_false_iff] at h
    simp [convertDictItems, convert_id_of_noFloat v h.1, convertDict_id_of_noFloat rest h.2]

theorem convertList_id_of_noFloat :
    ∀ vs : List PyVal, hasFloatList vs = false → convertListItems vs = vs
  | [], _ => by simp [convertListItems]
  | v :: rest, h => by
    simp only [hasFloatList, Bool.or_eq_false_iff] at h
    simp [convertListItems, convert_id_of_noFloat v h.1, convertList_id_of_noFloat rest h.2]

end

theorem convertDictItems_eq_map (kvs : List (List Char × PyVal)) :
    convertDictItems kvs = kvs.map (fun p => (p.1, convert_floats_to_decimal p.2)) := by
  induction kvs with
  | nil => simp [convertDictItems]
  | cons p rest ih => cases p; simp [convertDictItems, ih]

theorem convertListItems_eq_map (vs : List PyVal) :
    convertListItems vs = vs.map convert_floats_to_decimal := by
  induction vs with
  | nil => simp [convertListItems]
  | cons v rest ih => simp [convertListItems, ih]

/-! ## Claim theorems -/

/-- C1: `run_migration` returns `True` iff at least one object was listed
from the source bucket and, after all copy attempts have completed, the
failed-copies counter equals zero; when the listing is empty or the
listing call raises a client error (`listing = none`), it returns `False`
with the statistics still in their initial state, i.e. without attempting
any copy. -/
theorem run_migration_success_iff (listing : Option (List S3Object))
    (oracle : CopyOracle) (targets : List TargetConfig) :
    ((run_migration listing oracle targets).1 = true ↔
      (∃ objs, listing = some objs ∧ objs ≠ [] ∧
        (run_migration listing oracle targets).2.failed_copies = 0))
    ∧ ((listing = none ∨ listing = some []) →
        run_migration listing oracle targets = (false, initStats)) := by
  match listing with
  | none =>
    constructor
    · simp [run_migration, list_all_objects]
    · intro _; simp [run_migration, list_all_objects]
  | some [] =>
    constructor
    · simp [run_migration, list_all_objects]
    · intro _; simp [run_migration, list_all_objects, initStats]
  | some (o :: os) =>
    constructor
    · simp [run_migration, list_all_objects]
    · intro hcontra
      rcases hcontra with h | h <;> simp at h

/-- C9: after any sequence of completed `copy_object_to_target` calls on
a freshly constructed migrator, `successful_copies + failed_copies`
equals the number of completed calls, `bytes_transferred` equals the sum
of the sizes of the objects whose copies succeeded, and the length of the
`errors` list equals `failed_copies`. -/
theorem copy_statistics_invariant
    (events : List (S3Object × TargetConfig × Option (List Char))) :
    (applyCopyEvents events initStats).successful_copies
        + (applyCopyEvents events initStats).failed_copies = events.length
    ∧ (applyCopyEvents events initStats).bytes_transferred
        = ((events.filter (fun e => e.2.2.isNone)).map (fun e => e.1.size)).sum
    ∧ (applyCopyEvents events initStats).errors.length
        = (applyCopyEvents events initStats).failed_copies := by
  have h1 := applyCopyEvents_successful events initStats
  have h2 := applyCopyEvents_failed events initStats
  have h3 := applyCopyEvents_bytes events initStats
  have h4 := applyCopyEvents_errors events initStats
  have h5 := filterMap_outcome_length events
  have h6 := filter_outcome_length_split events
  refine ⟨?_, ?_, ?_⟩
  · rw [h1, h2]; simp [initStats]; omega
  · rw [h3]; simp [initStats]
  · rw [h4, h2]; simp [initStats, h5]

/-- C2: For every listed object, `migrate_object_to_all_targets` attempts
exactly one copy call per target configuration, in the order the targets
are listed — the `results` list has one entry per target, in target
order, whose value is that target's own copy outcome irrespective of the
outcomes of earlier targets (so the loop continues after a per-target
failure and never retries) — and the function returns `True` iff every
per-target copy succeeded. -/
theorem migrate_object_to_all_targets_spec (oracle : CopyOracle)
    (targets : List TargetConfig) (obj : S3Object) (stats : Stats) :
    (migrateLoop oracle obj targets stats).1 =
      targets.map (fun t => (oracle obj t).isNone)
    ∧ ((migrate_object_to_all_targets oracle targets obj stats).1 = true ↔
        ∀ t ∈ targets, oracle obj t = none) := by
  refine ⟨migrateLoop_results oracle obj targets stats, ?_⟩
  simp [migrate_object_to_all_targets, migrateLoop_results, List.all_eq_true,
    Option.isNone_iff_eq_none]

/-- C3: `validate_s3_bulk_migration` marks a target bucket `COMPLETE` iff
every object key listed in the source bucket is also among the target
bucket's keys (objects present only in the target never cause
`INCOMPLETE`, since only source keys are checked), and the function
returns `True` iff every target bucket is marked `COMPLETE`. -/
theorem validate_s3_bulk_migration_spec (sourcePages : List (List S3Object))
    (targetPages : TargetConfig → List (List S3Object)) (targets : List TargetConfig) :
    (∀ t ∈ targets,
      (s3TargetReport (dictKeys (get_bucket_objects sourcePages))
          (dictKeys (get_bucket_objects (targetPages t)))).status = "COMPLETE".data ↔
        ∀ k ∈ dictKeys (get_bucket_objects sourcePages),
          k ∈ dictKeys (get_bucket_objects (targetPages t)))
    ∧ ((validate_s3_bulk_migration sourcePages targetPages targets).1 = true ↔
        ∀ t ∈ targets,
          (s3TargetReport (dictKeys (get_bucket_objects sourcePages))
              (dictKeys (get_bucket_objects (targetPages t)))).status
            = "COMPLETE".data) := by
  constructor
  · intro t _
    exact s3TargetReport_complete_iff _ _
  · rw [validate_s3_bulk_migration]
    simp only [s3ValidateLoop_flag, Bool.true_and, List.all_eq_true, beq_iff_eq]
    apply forall_congr'
    intro t
    apply imp_congr_right
    intro _
    exact s3TargetReport_missing_zero_iff _ _

/-- C4: `validate_dynamodb_sync` marks a target `SYNCED` iff its scan
count equals the source scan count, and returns `True` iff every target
scan returned exactly the source count (an exception in a per-target
check, modelled by outcome `none`, forces a `False` return). -/
theorem validate_dynamodb_sync_spec (source_count : Nat)
    (targets : List (List Char × Option Nat)) :
    ((validate_dynamodb_sync source_count targets).1 = true ↔
      ∀ t ∈ targets, t.2 = some source_count)
    ∧ (∀ n, dynamoSyncStatus n source_count = "SYNCED".data ↔ n = source_count) := by
  constructor
  · simp [validate_dynamodb_sync, dynamoSyncLoop_flag, List.all_eq_true]
  · intro n
    by_cases h : n = source_count <;> simp [dynamoSyncStatus, h]

/-- C5: A caught provider client error is treated as success exactly when
its error code equals the operation's single expected already-done code:
`create_dynamodb_table` returns `True` on a client error iff the code is
`ResourceInUseException`; `delete_all_object_versions` reports the bucket
as already deleted iff the code is `NoSuchBucket` (and logs an error
otherwise); `create_replication_role` returns the existing role's ARN iff
the code is `EntityAlreadyExists` and `None` for every other code. -/
theorem clientError_code_dispatch :
    (∀ code, create_dynamodb_table (.clientError code) = true ↔
        code = "ResourceInUseException".data)
    ∧ (∀ code, delete_all_object_versions (some code) = .alreadyDeleted ↔
        code = "NoSuchBucket".data)
    ∧ (∀ code created existing,
        (create_replication_role (some code) created existing = some existing ↔
          code = "EntityAlreadyExists".data)
        ∧ (create_replication_role (some code) created existing = none ↔
          code ≠ "EntityAlreadyExists".data)) := by
  refine ⟨?_, ?_, ?_⟩
  · intro code
    by_cases h : code = "ResourceInUseException".data <;>
      simp [create_dynamodb_table, h]
  · intro code
    by_cases h : code = "NoSuchBucket".data <;>
      simp [delete_all_object_versions, h]
  · intro code created existing
    by_cases h : code = "EntityAlreadyExists".data <;>
      simp [create_replication_role, h]

/-- C7: The bulk-migration script's `main`, the replication-setup
script's `main` and the validation script's `load_configuration` compute
identical (target bucket, target region) lists for every source bucket
name, each obtained by replacing `source` in the source bucket name with
`target-us-west-2` (region us-west-2) and `target-eu-west-1`
(region eu-west-1). -/
theorem target_configs_agree (source_bucket : List Char) :
    bulkMigrationTargetConfigs source_bucket = replicationSetupTargetConfigs source_bucket
    ∧ replicationSetupTargetConfigs source_bucket = validationS3TargetConfigs source_bucket
    ∧ bulkMigrationTargetConfigs source_bucket =
        [ { bucket := pyReplace "source".data "target-us-west-2".data source_bucket
            region := "us-west-2".data },
          { bucket := pyReplace "source".data "target-eu-west-1".data source_bucket
            region := "eu-west-1".data } ] :=
  ⟨rfl, rfl, rfl⟩

/-- C10: `_convert_floats_to_decimal` is structure-preserving and
idempotent: it maps each float leaf to a Decimal, leaves every
non-float, non-dict, non-list value unchanged, maps dicts and lists
elementwise (preserving dict keys and list order and lengths), its
output contains no float anywhere, and applying it twice equals applying
it once. -/
theorem convert_floats_to_decimal_spec :
    (∀ f, convert_floats_to_decimal (.float f) = .decimal f)
    ∧ (∀ s, convert_floats_to_decimal (.str s) = .str s)
    ∧ (∀ n, convert_floats_to_decimal (.int n) = .int n)
    ∧ (∀ b, convert_floats_to_decimal (.bool b) = .bool b)
    ∧ (∀ d, convert_floats_to_decimal (.decimal d) = .decimal d)
    ∧ convert_floats_to_decimal .pynone = .pynone
    ∧ (∀ kvs, convert_floats_to_decimal (.dict kvs)
        = .dict (kvs.map (fun p => (p.1, convert_floats_to_decimal p.2))))
    ∧ (∀ vs, convert_floats_to_decimal (.list vs)
        = .list (vs.map convert_floats_to_decimal))
    ∧ (∀ v, hasFloat (convert_floats_to_decimal v) = false)
    ∧ (∀ v, convert_floats_to_decimal (convert_floats_to_decimal v)
        = convert_floats_to_decimal v) := by
  refine ⟨?_, ?_, ?_, ?_, ?_, ?_, ?_, ?_, convert_noFloat, ?_⟩
  · intro f; simp [convert_floats_to_decimal]
  · intro s; simp [convert_floats_to_decimal]
  · intro n; simp [convert_floats_to_decimal]
  · intro b; simp [convert_floats_to_decimal]
  · intro d; simp [convert_floats_to_decimal]
  · simp [convert_floats_to_decimal]
  · intro kvs
    rw [← convertDictItems_eq_map]
    simp [convert_floats_to_decimal]
  · intro vs
    rw [← convertListItems_eq_map]
    simp [convert_floats_to_decimal]
  · intro v; exact convert_id_of_noFloat _ (convert_noFloat v)

/-- Witness for C1: with the listing failing with a client error, the
migrator returns `False` with untouched statistics. -/
theorem run_migration_success_iff_witness :
    run_migration none (fun _ _ => none) [] = (false, initStats) :=
  (run_migration_success_iff none (fun _ _ => none) []).2 (Or.inl rfl)

/-- Witness for C2: with a single target whose copy succeeds, the
migration of one object returns `True`. -/
theorem migrate_object_to_all_targets_spec_witness :
    (migrate_object_to_all_targets (fun _ _ => none)
      [{ bucket := "b".data, region := "r".data }]
      { key := "k".data, size := 1, last_modified := "m".data, etag := "e".data }
      initStats).1 = true :=
  (migrate_object_to_all_targets_spec (fun _ _ => none)
    [{ bucket := "b".data, region := "r".data }]
    { key := "k".data, size := 1, last_modified := "m".data, etag := "e".data }
    initStats).2.mpr (fun _ _ => rfl)

/-- Witness for C3: a target holding the single source object validates
as `COMPLETE`. -/
theorem validate_s3_bulk_migration_spec_witness :
    (validate_s3_bulk_migration
        [[{ key := "k".data, size := 1, last_modified := "m".data, etag := "e".data }]]
        (fun _ => [[{ key := "k".data, size := 1, last_modified := "m".data, etag := "e".data }]])
        [{ bucket := "b".data, region := "r".data }]).1 = true :=
  (validate_s3_bulk_migration_spec
    [[{ key := "k".data, size := 1, last_modified := "m".data, etag := "e".data }]]
    (fun _ => [[{ key := "k".data, size := 1, last_modified := "m".data, etag := "e".data }]])
    [{ bucket := "b".data, region := "r".data }]).2.mpr (by decide)

/-- Witness for C4: one target whose scan count matches the source
count validates as synced. -/
theorem validate_dynamodb_sync_spec_witness :
    (validate_dynamodb_sync 2 [("x".data, some 2)]).1 = true :=
  (validate_dynamodb_sync_spec 2 [("x".data, some 2)]).1.mpr (by decide)

/-- Witness for C5: the already-exists code is treated as success by the
table-creation function. -/
theorem clientError_code_dispatch_witness :
    create_dynamodb_table (.clientError "ResourceInUseException".data) = true :=
  (clientError_code_dispatch.1 "ResourceInUseException".data).mpr rfl

/-- C6 (counterexample): the parsing loop takes `line.split('=')[1]`,
which is the text between the first and second `=`, not the full value
text following the first `=`: for the line `SOURCE_BUCKET=my=bucket` the
parsed source bucket is `my`, not `my=bucket`. -/
theorem parseBucketInfo_truncates_at_second_eq :
    (parseBucketInfo "SOURCE_BUCKET=my=bucket\nSOURCE_REGION=us-east-1".data).1
        = some "my".data
    ∧ (parseBucketInfo "SOURCE_BUCKET=my=bucket\nSOURCE_REGION=us-east-1".data).1
        ≠ some "my=bucket".data := by
  constructor
  · decide
  · decide

/-- C6 (amended): for every configuration file among whose lines exactly
one starts with `SOURCE_BUCKET=` and exactly one with `SOURCE_REGION=`,
the shared parsing loop recovers as source bucket and source region the
full value text following the first `=` of the respective line, provided
each value itself contains no `=` character (with an `=` in the value the
parsed result is truncated at it, as the counterexample shows). -/
theorem parseBucketInfo_recovers_values (content b r : List Char)
    (pre mid post : List (List Char))
    (hsplit : pySplitOn '\n' content =
      pre ++ ("SOURCE_BUCKET=".data ++ b) :: (mid ++ ("SOURCE_REGION=".data ++ r) :: post))
    (hb : '=' ∉ b) (hr : '=' ∉ r)
    (hpre : ∀ l ∈ pre, pyStartsWith "SOURCE_BUCKET=".data l = false
      ∧ pyStartsWith "SOURCE_REGION=".data l = false)
    (hmid : ∀ l ∈ mid, pyStartsWith "SOURCE_BUCKET=".data l = false
      ∧ pyStartsWith "SOURCE_REGION=".data l = false)
    (hpost : ∀ l ∈ post, pyStartsWith "SOURCE_BUCKET=".data l = false
      ∧ pyStartsWith "SOURCE_REGION=".data l = false) :
    parseBucketInfo content = (some b, some r) := by
  have hlb : pyStartsWith "SOURCE_BUCKET=".data ("SOURCE_BUCKET=".data ++ b) = true :=
    pyStartsWith_append_self _ _
  have hlr1 : pyStartsWith "SOURCE_BUCKET=".data ("SOURCE_REGION=".data ++ r) = false := by
    rw [pyStartsWith, isPrefixOf_append_of_le _ _ _ (by decide)]
    decide
  have hlr2 : pyStartsWith "SOURCE_REGION=".data ("SOURCE_REGION=".data ++ r) = true :=
    pyStartsWith_append_self _ _
  have hkeyb : "SOURCE_BUCKET=".data ++ b = "SOURCE_BUCKET".data ++ '=' :: b := by
    have h : "SOURCE_BUCKET=".data = "SOURCE_BUCKET".data ++ ['='] := by decide
    rw [h, List.append_assoc]
    rfl
  have hkeyr : "SOURCE_REGION=".data ++ r = "SOURCE_REGION".data ++ '=' :: r := by
    have h : "SOURCE_REGION=".data = "SOURCE_REGION".data ++ ['='] := by decide
    rw [h, List.append_assoc]
    rfl
  rw [parseBucketInfo, hsplit,
    parseSourceLines_two _ _ _ _ _ _ _ _ hpre hmid hpost hlb hlr1 hlr2,
    hkeyb, hkeyr, splitOn_key_value _ _ (by decide) hb,
    splitOn_key_value _ _ (by decide) hr]

/-- Witness for the amended C6 on the canonical two-line
`bucket-info.txt`. -/
theorem parseBucketInfo_recovers_values_witness :
    parseBucketInfo "SOURCE_BUCKET=migration-demo-source-36714\nSOURCE_REGION=us-east-1".data
      = (some "migration-demo-source-36714".data, some "us-east-1".data) :=
  parseBucketInfo_recovers_values
    "SOURCE_BUCKET=migration-demo-source-36714\nSOURCE_REGION=us-east-1".data
    "migration-demo-source-36714".data "us-east-1".data [] [] []
    (by decide) (by decide) (by decide) (by decide) (by decide) (by decide)

/-- C8: writing `dynamodb-info.txt` with the create-tables script's save
step and parsing it with the stream-sync script's `main` recovers exactly
the SOURCE_TABLE and SOURCE_REGION values, for every table name and
region containing no `=` and no newline. -/
theorem dynamodbInfo_roundtrip (t r : List Char)
    (ht1 : '=' ∉ t) (ht2 : '\n' ∉ t) (hr1 : '=' ∉ r) (hr2 : '\n' ∉ r) :
    parseDynamoInfo (dynamodbInfoContent t r ["us-west-2".data, "eu-west-1".data])
      = (some t, some r) := by
  have e1 : dynamodbInfoContent t r ["us-west-2".data, "eu-west-1".data] =
      ("SOURCE_TABLE=".data ++ t) ++ '\n' ::
        (("SOURCE_REGION=".data ++ r) ++ '\n' :: dynamodbInfoTail) := by
    simp [dynamodbInfoContent, dynamodbInfoTail, List.append_assoc]
  have hA : '\n' ∉ "SOURCE_TABLE=".data ++ t := by
    intro hmem
    rcases List.mem_append.mp hmem with h | h
    · exact absurd h (by decide)
    · exact ht2 h
  have hB : '\n' ∉ "SOURCE_REGION=".data ++ r := by
    intro hmem
    rcases List.mem_append.mp hmem with h | h
    · exact absurd h (by decide)
    · exact hr2 h
  have hsplit : pySplitOn '\n' (dynamodbInfoContent t r ["us-west-2".data, "eu-west-1".data]) =
      ("SOURCE_TABLE=".data ++ t) ::
        (("SOURCE_REGION=".data ++ r) :: pySplitOn '\n' dynamodbInfoTail) := by
    rw [e1, pySplitOn_append_sep _ _ _ hA, pySplitOn_append_sep _ _ _ hB]
  have hlb : pyStartsWith "SOURCE_TABLE=".data ("SOURCE_TABLE=".data ++ t) = true :=
    pyStartsWith_append_self _ _
  have hlr1 : pyStartsWith "SOURCE_TABLE=".data ("SOURCE_REGION=".data ++ r) = false := by
    rw [pyStartsWith, isPrefixOf_append_of_le _ _ _ (by decide)]
    decide
  have hlr2 : pyStartsWith "SOURCE_REGION=".data ("SOURCE_REGION=".data ++ r) = true :=
    pyStartsWith_append_self _ _
  have hpost : ∀ l ∈ pySplitOn '\n' dynamodbInfoTail,
      pyStartsWith "SOURCE_TABLE=".data l = false
      ∧ pyStartsWith "SOURCE_REGION=".data l = false := by decide
  have hkeyt : "SOURCE_TABLE=".data ++ t = "SOURCE_TABLE".data ++ '=' :: t := by
    have h : "SOURCE_TABLE=".data = "SOURCE_TABLE".data ++ ['='] := by decide
    rw [h, List.append_assoc]
    rfl
  have hkeyr : "SOURCE_REGION=".data ++ r = "SOURCE_REGION".data ++ '=' :: r := by
    have h : "SOURCE_REGION=".data = "SOURCE_REGION".data ++ ['='] := by decide
    rw [h, List.append_assoc]
    rfl
  have happ : ("SOURCE_TABLE=".data ++ t) ::
      (("SOURCE_REGION=".data ++ r) :: pySplitOn '\n' dynamodbInfoTail) =
      [] ++ ("SOURCE_TABLE=".data ++ t) ::
        ([] ++ ("SOURCE_REGION=".data ++ r) :: pySplitOn '\n' dynamodbInfoTail) := rfl
  rw [parseDynamoInfo, hsplit, happ,
    parseSourceLines_two _ _ _ _ _ _ _ _ (by simp) (by simp) hpost hlb hlr1 hlr2,
    hkeyt, hkeyr, splitOn_key_value _ _ (by decide) ht1,
    splitOn_key_value _ _ (by decide) hr1]

/-- Witness for C8 at the values the create-tables script actually
writes. -/
theorem dynamodbInfo_roundtrip_witness :
    parseDynamoInfo (dynamodbInfoContent "migration-demo-user-data".data "us-east-1".data
        ["us-west-2".data, "eu-west-1".data])
      = (some "migration-demo-user-data".data, some "us-east-1".data) :=
  dynamodbInfo_roundtrip "migration-demo-user-data".data "us-east-1".data
    (by decide) (by decide) (by decide) (by decide)

end AwsMigration
